import Mathlib

/-!
Shallow embedding of `scripts/extract_volume.py`.

The script wraps the FreeCAD geometry kernel: `extract_volume` creates a
document, imports a STEP file into it, sums the `Shape.Volume` of every
top-level object whose volume is strictly positive, closes the document,
and returns either a success dictionary or an error dictionary; `main`
does the CLI argument handling around it.

Modelling decisions, all driven by the Python source:

* The kernel is an opaque collaborator.  A `Kernel` value records the
  behaviour the script can observe: whether the FreeCAD module imports
  succeed, and what `Import.insert` followed by `doc.Objects`
  yields — either an exception (any failure inside the inner try
  block) or the list of top-level objects.
* A document object is observed through `hasattr(obj, Shape)`,
  `hasattr(obj.Shape, Volume)` and the value `obj.Shape.Volume`.  In
  Python 3, `hasattr` returns False on an AttributeError but lets any
  other exception propagate; FreeCAD attribute access on a broken
  object can raise such exceptions.  `AttrResult` has the three cases:
  the attribute is present (`ok`), absent (`absent`), or the access
  raises a non-AttributeError exception (`raised`).
* Volumes are binary64 floats in Python; they are modelled as exact
  rationals (`ℚ`), so the arithmetic claims are settled in exact
  arithmetic.
* The Python dictionaries are modelled as ordered key/value lists
  (`List (String × JVal)`), preserving the literal field order of the
  source, so that having exactly these fields and no others is
  expressible.
* `extract_volume` also reports whether a document scope was created
  (`docOpened`) and whether `FreeCAD.closeDocument` was called before
  returning (`docClosed`), which is the resource-cleanup observable.
  `FreeCAD.newDocument` and `FreeCAD.closeDocument` themselves are
  modelled as non-raising.
* `main` is a function of the argument vector (`sys.argv`, program name
  included), the `os.path.exists` oracle, and the kernel behaviour; it
  returns the lines printed to stdout, the process exit code, and
  whether the extraction service (and hence the kernel) was invoked.
-/

namespace ExtractVolume

/-- Result of a Python attribute access as tested by `hasattr`:
present, absent (AttributeError), or raising some other exception. -/
inductive AttrResult (α : Type) where
  | ok (a : α)
  | absent
  | raised (msg : String)
deriving DecidableEq

/-- The observable part of `obj.Shape`: its `Volume` attribute. -/
structure ShapeVal where
  volumeAttr : AttrResult ℚ
deriving DecidableEq

/-- A top-level document object: its `Shape` attribute. -/
structure PyObj where
  shapeAttr : AttrResult ShapeVal
deriving DecidableEq

/-- A JSON-serialisable Python value, as used by the dictionaries the
script returns. -/
inductive JVal where
  | num (q : ℚ)
  | int (n : Nat)
  | str (s : String)
  | bool (b : Bool)
deriving DecidableEq

/-- The behaviour of the FreeCAD kernel observable by one invocation:
whether the FreeCAD module import succeeds (either directly or after
the fallback `sys.path` additions), and the outcome of the inner
`import Import; Import.insert(...)` block together with the resulting
`doc.Objects` list. -/
structure Kernel where
  freecadAvailable : Bool
  importResult : Except String (List PyObj)

/-- Everything observable about one `extract_volume` call: the returned
dictionary, whether `FreeCAD.newDocument` ran, and whether
`FreeCAD.closeDocument` ran before the return. -/
structure ExtractOutcome where
  result : List (String × JVal)
  docOpened : Bool
  docClosed : Bool
deriving DecidableEq

/-- The error dictionary shape of the script. -/
def errShape (msg : String) : List (String × JVal) :=
  [("error", JVal.str msg)]

/-- The success dictionary shape of the script, in source field order. -/
def successShape (v : ℚ) (c : Nat) : List (String × JVal) :=
  [("volume", JVal.num v),
   ("units", JVal.str ("cm3")),
   ("object_count", JVal.int c),
   ("success", JVal.bool true)]

/-- The `for obj in doc.Objects` loop of `extract_volume`:

    for obj in doc.Objects:
        if hasattr(obj, ...Shape) and hasattr(obj.Shape, ...Volume):
            if obj.Shape.Volume > 0:
                total_volume += obj.Shape.Volume
                object_count += 1

An attribute access that raises a non-AttributeError exception aborts
the loop with that exception (to be caught by the outer except). -/
def volumeLoop : List PyObj → ℚ → Nat → Except String (ℚ × Nat)
  | [], total_volume, object_count => .ok (total_volume, object_count)
  | obj :: rest, total_volume, object_count =>
    match obj.shapeAttr with
    | .raised msg => .error msg
    | .absent => volumeLoop rest total_volume object_count
    | .ok sh =>
      match sh.volumeAttr with
      | .raised msg => .error msg
      | .absent => volumeLoop rest total_volume object_count
      | .ok v =>
        if 0 < v then volumeLoop rest (total_volume + v) (object_count + 1)
        else volumeLoop rest total_volume object_count

/-- The function `extract_volume(step_file_path)` of the script, as a
function of the kernel behaviour for that path.  Mirrors the source
control flow: FreeCAD import check, `newDocument`, import block (which
closes the document on failure), the volume loop, `closeDocument`, the
`total_volume <= 0` check, and the unit conversion; the outer except
clause catches an exception escaping the loop and returns the
internal-failure error without having closed the document (the source
has no finally clause). -/
def extract_volume (k : Kernel) : ExtractOutcome :=
  if k.freecadAvailable then
    match k.importResult with
    | .error e =>
        ⟨errShape ("Failed to import STEP file: " ++ e), true, true⟩
    | .ok objs =>
      match volumeLoop objs 0 0 with
      | .error msg =>
          ⟨errShape ("Volume extraction failed: " ++ msg), true, false⟩
      | .ok (total_volume, object_count) =>
          if total_volume ≤ 0 then
            ⟨errShape ("No valid solid objects found in STEP file"), true, true⟩
          else
            ⟨successShape (total_volume / 1000) object_count, true, true⟩
  else
    ⟨errShape ("FreeCAD not installed or not in PATH"), false, false⟩

/-- Rendering of one JSON value.  Numeric rendering abstracts the
Python float repr; only its determinism matters to the claims. -/
def JVal.render : JVal → String
  | .num q => toString q
  | .int n => toString n
  | .str s => "\"" ++ s ++ "\""
  | .bool b => if b then "true" else "false"

/-- `json.dumps` on the dictionaries the script builds (default
separators). -/
def jsonDumps (d : List (String × JVal)) : String :=
  "\x7b" ++
    String.intercalate (", ")
      (d.map (fun kv => "\"" ++ kv.1 ++ "\": " ++ (kv.2).render)) ++
  "\x7d"

/-- Everything observable about one `main()` run: stdout lines, the
process exit code, and whether `extract_volume` was invoked. -/
structure MainOutcome where
  stdout : List String
  exitCode : Nat
  kernelInvoked : Bool
deriving DecidableEq

/-- The literal usage-error line printed by `main`. -/
def usageLine : String :=
  "\x7b\"error\": \"Usage: python3 extract_volume.py <step_file_path>\"\x7d"

/-- The literal file-not-found line printed by `main`. -/
def notFoundLine : String :=
  "\x7b\"error\": \"STEP file not found\"\x7d"

/-- The function `main()` of the script: argument-count check against
`sys.argv` (program name included), `os.path.exists` pre-check, then
the service call and `print(json.dumps(result))` followed by a normal
process exit. -/
def main (argv : List String) (pathExists : String → Bool) (k : Kernel) :
    MainOutcome :=
  if argv.length ≠ 2 then
    ⟨[usageLine], 1, false⟩
  else
    let step_file_path := argv.getD 1 ("")
    if !(pathExists step_file_path) then
      ⟨[notFoundLine], 1, false⟩
    else
      ⟨[jsonDumps (extract_volume k).result], 0, true⟩

/-- The volume an object contributes to the aggregation, if any: present
`Shape`, present `Volume`, and strictly positive value. -/
def contribVol (o : PyObj) : Option ℚ :=
  match o.shapeAttr with
  | .ok sh =>
    match sh.volumeAttr with
    | .ok v => if 0 < v then some v else none
    | _ => none
  | _ => none

/-- The contributing volumes of a document, in order. -/
def contribVols (objs : List PyObj) : List ℚ :=
  objs.filterMap contribVol

/-- An object of the kind claim C3 counts: it has a shape whose volume
is defined and strictly positive. -/
def isContributing (o : PyObj) : Bool :=
  match o.shapeAttr with
  | .ok sh =>
    match sh.volumeAttr with
    | .ok v => decide (0 < v)
    | _ => false
  | _ => false

/-- An object of the kinds claim C3 skips: no shape, no volume property,
or zero volume. -/
def isSkipped (o : PyObj) : Bool :=
  match o.shapeAttr with
  | .absent => true
  | .raised _ => false
  | .ok sh =>
    match sh.volumeAttr with
    | .absent => true
    | .raised _ => false
    | .ok v => decide (v = 0)

/-- An object with a well-defined strictly positive volume of `v` mm³. -/
def goodObj (v : ℚ) : PyObj := ⟨.ok ⟨.ok v⟩⟩

/-- An object with no `Shape` attribute (e.g. a datum). -/
def noShapeObj : PyObj := ⟨.absent⟩

/-- An object whose shape has no `Volume` attribute. -/
def noVolObj : PyObj := ⟨.ok ⟨.absent⟩⟩

/-- An object whose shape volume is zero (degenerate geometry). -/
def zeroObj : PyObj := ⟨.ok ⟨.ok 0⟩⟩

/-- An object whose `Shape` attribute access raises a
non-AttributeError exception, which `hasattr` propagates. -/
def badShapeObj : PyObj := ⟨.raised ("geometry access failed")⟩

/-- Kernel behaviour: import succeeds and yields one object whose
attribute access raises mid-enumeration. -/
def badKernel : Kernel := ⟨true, .ok [badShapeObj]⟩

/-- Kernel behaviour: import succeeds and yields one 2000 mm³ solid. -/
def okKernel : Kernel := ⟨true, .ok [goodObj 2000]⟩

/-- A document mixing two solids with datums, a zero-volume shape and a
shape without a volume property. -/
def mixedObjs : List PyObj :=
  [goodObj 1500, noShapeObj, goodObj 500, zeroObj, noVolObj]

/-- Kernel behaviour yielding `mixedObjs`. -/
def mixedKernel : Kernel := ⟨true, .ok mixedObjs⟩

/-- Kernel behaviour for a purely-surface file: objects but no solid. -/
def surfKernel : Kernel := ⟨true, .ok [noShapeObj, zeroObj]⟩

/-- Kernel behaviour for a file with a single zero-volume shape. -/
def zeroKernel : Kernel := ⟨true, .ok [zeroObj]⟩

/-- Running the aggregation loop from accumulator `(t, c)` to a normal
result `(t2, c2)` never decreases either component, leaves the total
unchanged exactly when it leaves the counter unchanged, and strictly
increases the total whenever it increments the counter (each
contribution is strictly positive). -/
theorem volumeLoop_invariant (objs : List PyObj) :
    ∀ (t : ℚ) (c : Nat) (t2 : ℚ) (c2 : Nat),
      volumeLoop objs t c = .ok (t2, c2) →
      t ≤ t2 ∧ c ≤ c2 ∧ (c2 = c → t2 = t) ∧ (c < c2 → t < t2) := by
  induction objs with
  | nil =>
    intro t c t2 c2 h
    simp [volumeLoop] at h
    obtain ⟨h1, h2⟩ := h
    subst h1; subst h2
    exact ⟨le_refl _, le_refl _, fun _ => rfl, fun hc => absurd hc (lt_irrefl c)⟩
  | cons o rest ih =>
    intro t c t2 c2 h
    obtain ⟨sa⟩ := o
    cases sa with
    | raised msg => simp [volumeLoop] at h
    | absent =>
      simp only [volumeLoop] at h
      exact ih t c t2 c2 h
    | ok sh =>
      obtain ⟨va⟩ := sh
      cases va with
      | raised msg => simp [volumeLoop] at h
      | absent =>
        simp only [volumeLoop] at h
        exact ih t c t2 c2 h
      | ok v =>
        simp only [volumeLoop] at h
        by_cases hpos : 0 < v
        · rw [if_pos hpos] at h
          obtain ⟨h1, h2, h3, h4⟩ := ih (t + v) (c + 1) t2 c2 h
          refine ⟨by linarith, by omega, fun hc => by omega, fun _ => by linarith⟩
        · rw [if_neg hpos] at h
          exact ih t c t2 c2 h

/-- On a document whose objects are all either contributing or skipped
(no attribute access raises), the aggregation loop terminates normally
and adds exactly the contributing volumes and their number. -/
theorem volumeLoop_of_benign (objs : List PyObj)
    (hben : ∀ o ∈ objs, isContributing o = true ∨ isSkipped o = true) :
    ∀ (t : ℚ) (c : Nat),
      volumeLoop objs t c =
        .ok (t + (contribVols objs).sum, c + (contribVols objs).length) := by
  induction objs with
  | nil => intro t c; simp [volumeLoop, contribVols]
  | cons o rest ih =>
    have hrest : ∀ o2 ∈ rest, isContributing o2 = true ∨ isSkipped o2 = true :=
      fun o2 h2 => hben o2 (List.mem_cons_of_mem o h2)
    have hhead := hben o (List.mem_cons_self o rest)
    intro t c
    obtain ⟨sa⟩ := o
    cases sa with
    | raised msg =>
      exfalso
      rcases hhead with hc | hs
      · simp [isContributing] at hc
      · simp [isSkipped] at hs
    | absent =>
      simp only [volumeLoop]
      have hcv : contribVol ⟨.absent⟩ = none := by simp [contribVol]
      simp only [contribVols, List.filterMap_cons, hcv]
      exact ih hrest t c
    | ok sh =>
      obtain ⟨va⟩ := sh
      cases va with
      | raised msg =>
        exfalso
        rcases hhead with hc | hs
        · simp [isContributing] at hc
        · simp [isSkipped] at hs
      | absent =>
        simp only [volumeLoop]
        have hcv : contribVol ⟨.ok ⟨.absent⟩⟩ = none := by simp [contribVol]
        simp only [contribVols, List.filterMap_cons, hcv]
        exact ih hrest t c
      | ok v =>
        simp only [volumeLoop]
        by_cases hpos : 0 < v
        · rw [if_pos hpos]
          have hcv : contribVol ⟨.ok ⟨.ok v⟩⟩ = some v := by
            simp [contribVol, hpos]
          simp only [contribVols, List.filterMap_cons, hcv]
          rw [ih hrest (t + v) (c + 1)]
          simp only [List.sum_cons, List.length_cons, contribVols]
          rw [Except.ok.injEq, Prod.mk.injEq]
          exact ⟨by ring, by omega⟩
        · rw [if_neg hpos]
          have hv0 : v = 0 := by
            rcases hhead with hc | hs
            · exfalso
              simp [isContributing] at hc
              exact hpos hc
            · simp [isSkipped] at hs
              exact hs
          have hcv : contribVol ⟨.ok ⟨.ok v⟩⟩ = none := by
            simp [contribVol, hpos]
          simp only [contribVols, List.filterMap_cons, hcv]
          exact ih hrest t c

/-- Every contributing volume is strictly positive, by the strict
comparison in the source. -/
theorem contribVols_pos (objs : List PyObj) :
    ∀ v ∈ contribVols objs, 0 < v := by
  intro v hv
  rw [contribVols, List.mem_filterMap] at hv
  obtain ⟨o, _, ho⟩ := hv
  obtain ⟨sa⟩ := o
  cases sa with
  | raised msg => simp [contribVol] at ho
  | absent => simp [contribVol] at ho
  | ok sh =>
    obtain ⟨va⟩ := sh
    cases va with
    | raised msg => simp [contribVol] at ho
    | absent => simp [contribVol] at ho
    | ok w =>
      simp only [contribVol] at ho
      by_cases hpos : 0 < w
      · rw [if_pos hpos] at ho
        cases ho
        exact hpos
      · rw [if_neg hpos] at ho
        simp at ho

/-- Claim C1 (code bug): the claim says the document scope is released
on every exit path of `extract_volume` where it was created, including
the path where an unexpected exception is caught and mapped to an
InternalFailure error.  The source has no finally clause, so on the
concrete input `badKernel` — import succeeds, and enumerating the one
object raises a non-AttributeError exception, which `hasattr`
propagates — the function returns the InternalFailure error with the
document scope still open: `docOpened` is true but `docClosed` is
false. -/
theorem claim_C1_bug :
    (extract_volume badKernel).docOpened = true ∧
    (extract_volume badKernel).docClosed = false ∧
    (extract_volume badKernel).result =
      errShape ("Volume extraction failed: geometry access failed") := by
  refine ⟨by norm_num [extract_volume, badKernel, badShapeObj, volumeLoop],
          by norm_num [extract_volume, badKernel, badShapeObj, volumeLoop], ?_⟩
  norm_num [extract_volume, badKernel, badShapeObj, volumeLoop, errShape]
  rfl

/-- Claim C2: whenever `extract_volume` returns the success shape, the
returned volume is strictly positive and the returned object count is
at least 1. -/
theorem claim_C2 (k : Kernel) (v : ℚ) (c : Nat)
    (h : (extract_volume k).result = successShape v c) :
    0 < v ∧ 1 ≤ c := by
  cases hf : k.freecadAvailable with
  | false => simp [extract_volume, hf, errShape, successShape] at h
  | true =>
    cases him : k.importResult with
    | error e => simp [extract_volume, hf, him, errShape, successShape] at h
    | ok objs =>
      cases hloop : volumeLoop objs 0 0 with
      | error msg => simp [extract_volume, hf, him, hloop, errShape, successShape] at h
      | ok p =>
        obtain ⟨total, count⟩ := p
        by_cases hle : total ≤ 0
        · simp [extract_volume, hf, him, hloop, hle, errShape, successShape] at h
        · simp [extract_volume, hf, him, hloop, hle, successShape] at h
          obtain ⟨hv, hc⟩ := h
          have htpos : 0 < total := not_le.mp hle
          obtain ⟨_, _, hz, _⟩ := volumeLoop_invariant objs 0 0 total count hloop
          constructor
          · rw [← hv]; positivity
          · rcases Nat.eq_zero_or_pos count with h0 | h1
            · exfalso; rw [hz h0] at htpos; exact lt_irrefl 0 htpos
            · omega

/-- Witness for claim C2 at the concrete kernel `okKernel`: the result
is the success shape with volume 2 cm³ and object count 1, and the
claimed bounds hold there. -/
theorem claim_C2_witness :
    ((extract_volume okKernel).result = successShape 2 1) ∧
    ((0:ℚ) < 2 ∧ 1 ≤ 1) := by
  have h : (extract_volume okKernel).result = successShape 2 1 := by
    norm_num [extract_volume, okKernel, goodObj, volumeLoop, successShape]
  exact ⟨h, claim_C2 okKernel 2 1 h⟩

/-- Claim C3: on a successfully imported document in which every object
either contributes (shape present, volume defined and strictly
positive) or is skipped (no shape, no volume property, or zero
volume), and at least one object contributes, `extract_volume` returns
success with the object count equal to the number of contributing
objects and the volume equal to the sum of their volumes divided
by 1000. -/
theorem claim_C3 (k : Kernel) (objs : List PyObj)
    (hf : k.freecadAvailable = true)
    (him : k.importResult = .ok objs)
    (hben : ∀ o ∈ objs, isContributing o = true ∨ isSkipped o = true)
    (hne : contribVols objs ≠ []) :
    (extract_volume k).result =
      successShape ((contribVols objs).sum / 1000) ((contribVols objs).length) := by
  have hloop := volumeLoop_of_benign objs hben 0 0
  simp only [zero_add, Nat.zero_add] at hloop
  have hpos : 0 < (contribVols objs).sum :=
    List.sum_pos _ (contribVols_pos objs) hne
  have hnle : ¬ (contribVols objs).sum ≤ 0 := not_le.mpr hpos
  simp [extract_volume, hf, him, hloop, hnle]

/-- Witness for claim C3 at the concrete kernel `mixedKernel`: two
solids of 1500 mm³ and 500 mm³ interspersed with a datum, a
zero-volume shape and a shape without a volume property. -/
theorem claim_C3_witness :
    (extract_volume mixedKernel).result =
      successShape ((contribVols mixedObjs).sum / 1000)
        ((contribVols mixedObjs).length) :=
  claim_C3 mixedKernel mixedObjs rfl rfl (by decide) (by decide)

/-- Claim C4: for every kernel behaviour, the `extract_volume` result
dictionary is exactly the single-field error shape or exactly the
four-field success shape, and the two shapes are never equal (so
exactly one of them occurs); totality of `extract_volume` embeds the
fact that no exception escapes to the caller. -/
theorem claim_C4 (k : Kernel) :
    ((∃ m, (extract_volume k).result = errShape m) ∨
     (∃ v c, (extract_volume k).result = successShape v c)) ∧
    (∀ m v c, errShape m ≠ successShape v c) := by
  constructor
  · cases hf : k.freecadAvailable with
    | false =>
      exact Or.inl ⟨"FreeCAD not installed or not in PATH",
        by simp [extract_volume, hf]⟩
    | true =>
      cases him : k.importResult with
      | error e =>
        exact Or.inl ⟨"Failed to import STEP file: " ++ e,
          by simp [extract_volume, hf, him]⟩
      | ok objs =>
        cases hloop : volumeLoop objs 0 0 with
        | error msg =>
          exact Or.inl ⟨"Volume extraction failed: " ++ msg,
            by simp [extract_volume, hf, him, hloop]⟩
        | ok p =>
          obtain ⟨total, count⟩ := p
          by_cases hle : total ≤ 0
          · exact Or.inl ⟨"No valid solid objects found in STEP file",
              by simp [extract_volume, hf, him, hloop, hle]⟩
          · exact Or.inr ⟨total / 1000, count,
              by simp [extract_volume, hf, him, hloop, hle]⟩
  · intro m v c hcontra
    simp [errShape, successShape] at hcontra

/-- Claim C5: on a successfully imported document whose aggregation
loop finishes with a running total that is not positive,
`extract_volume` returns the error dictionary with exactly the message
of the NoSolidGeometry kind, not a success result. -/
theorem claim_C5 (k : Kernel) (objs : List PyObj) (total : ℚ) (count : Nat)
    (hf : k.freecadAvailable = true)
    (him : k.importResult = .ok objs)
    (hloop : volumeLoop objs 0 0 = .ok (total, count))
    (hle : total ≤ 0) :
    (extract_volume k).result =
      errShape ("No valid solid objects found in STEP file") := by
  simp [extract_volume, hf, him, hloop, hle]

/-- Witness for claim C5 at the concrete kernel `surfKernel`: a datum
and a zero-volume shape leave the total at zero, and the
NoSolidGeometry error is returned. -/
theorem claim_C5_witness :
    (extract_volume surfKernel).result =
      errShape ("No valid solid objects found in STEP file") :=
  claim_C5 surfKernel [noShapeObj, zeroObj] 0 0 rfl rfl
    (by norm_num [volumeLoop, noShapeObj, zeroObj]) (le_refl 0)

/-- Claim C6: a CLI invocation whose positional argument count is not
exactly 1 prints the usage-error JSON line, exits with a non-zero
status, and never contacts the kernel. -/
theorem claim_C6 (prog : String) (args : List String)
    (pathExists : String → Bool) (k : Kernel) (h : args.length ≠ 1) :
    (main (prog :: args) pathExists k).stdout = [usageLine] ∧
    (main (prog :: args) pathExists k).exitCode ≠ 0 ∧
    (main (prog :: args) pathExists k).kernelInvoked = false := by
  simp [main, h]

/-- Witness for claim C6 at a concrete invocation with zero positional
arguments. -/
theorem claim_C6_witness :
    (main ["extract_volume.py"] (fun _ => false) ⟨true, .ok []⟩).stdout = [usageLine] ∧
    (main ["extract_volume.py"] (fun _ => false) ⟨true, .ok []⟩).exitCode ≠ 0 ∧
    (main ["extract_volume.py"] (fun _ => false) ⟨true, .ok []⟩).kernelInvoked = false :=
  claim_C6 ("extract_volume.py") [] (fun _ => false) ⟨true, .ok []⟩ (by decide)

/-- Claim C7: a CLI invocation with exactly one argument naming a
nonexistent path prints exactly the file-not-found JSON line, exits
with code 1, and never invokes the extraction service or the kernel. -/
theorem claim_C7 (prog fp : String) (pathExists : String → Bool) (k : Kernel)
    (h : pathExists fp = false) :
    (main [prog, fp] pathExists k).stdout = [notFoundLine] ∧
    (main [prog, fp] pathExists k).exitCode = 1 ∧
    (main [prog, fp] pathExists k).kernelInvoked = false := by
  simp [main, h]

/-- Witness for claim C7 at a concrete invocation on a missing path. -/
theorem claim_C7_witness :
    (main ["extract_volume.py", "missing.step"] (fun _ => false) ⟨true, .ok []⟩).stdout =
      [notFoundLine] ∧
    (main ["extract_volume.py", "missing.step"] (fun _ => false) ⟨true, .ok []⟩).exitCode = 1 ∧
    (main ["extract_volume.py", "missing.step"] (fun _ => false) ⟨true, .ok []⟩).kernelInvoked =
      false :=
  claim_C7 ("extract_volume.py") ("missing.step") (fun _ => false) ⟨true, .ok []⟩ rfl

/-- Claim C8: a CLI invocation with exactly one argument naming an
existing path prints the serialisation of the service result — success
or error shape alike — as the single stdout line and exits with
code 0. -/
theorem claim_C8 (prog fp : String) (pathExists : String → Bool) (k : Kernel)
    (h : pathExists fp = true) :
    (main [prog, fp] pathExists k).stdout = [jsonDumps (extract_volume k).result] ∧
    (main [prog, fp] pathExists k).exitCode = 0 ∧
    (main [prog, fp] pathExists k).kernelInvoked = true := by
  simp [main, h]

/-- Witness for claim C8 at a concrete invocation on an existing path
with kernel behaviour `okKernel`. -/
theorem claim_C8_witness :
    (main ["extract_volume.py", "part.step"] (fun _ => true) okKernel).stdout =
      [jsonDumps (extract_volume okKernel).result] ∧
    (main ["extract_volume.py", "part.step"] (fun _ => true) okKernel).exitCode = 0 ∧
    (main ["extract_volume.py", "part.step"] (fun _ => true) okKernel).kernelInvoked = true :=
  claim_C8 ("extract_volume.py") ("part.step") (fun _ => true) okKernel rfl

/-- Claim C9: the pipeline is deterministic — two invocations with the
same argument vector, the same filesystem state and identical kernel
behaviour produce identical outcomes, including bit-identical
serialized JSON on stdout. -/
theorem claim_C9 (argv argv2 : List String) (pe pe2 : String → Bool) (k k2 : Kernel)
    (h1 : argv = argv2) (h2 : pe = pe2) (h3 : k = k2) :
    main argv pe k = main argv2 pe2 k2 := by
  subst h1; subst h2; subst h3; rfl

/-- Witness for claim C9 at a concrete repeated invocation. -/
theorem claim_C9_witness :
    main ["extract_volume.py", "part.step"] (fun _ => true) okKernel =
      main ["extract_volume.py", "part.step"] (fun _ => true) okKernel :=
  claim_C9 ["extract_volume.py", "part.step"] ["extract_volume.py", "part.step"]
    (fun _ => true) (fun _ => true) okKernel okKernel rfl rfl rfl

/-- Claim C10 (exact arithmetic): on a successfully imported document
whose aggregation loop finishes normally, the NoSolidGeometry error is
returned exactly when the final object count is 0; and whenever the
count is positive, the success shape is returned with the converted
total and that count. -/
theorem claim_C10 (k : Kernel) (objs : List PyObj) (total : ℚ) (count : Nat)
    (hf : k.freecadAvailable = true)
    (him : k.importResult = .ok objs)
    (hloop : volumeLoop objs 0 0 = .ok (total, count)) :
    ((extract_volume k).result =
        errShape ("No valid solid objects found in STEP file") ↔ count = 0) ∧
    (0 < count → (extract_volume k).result = successShape (total / 1000) count) := by
  obtain ⟨h0, _, hz, hlt⟩ := volumeLoop_invariant objs 0 0 total count hloop
  constructor
  · constructor
    · intro hres
      by_contra hc
      have hcpos : 0 < count := Nat.pos_of_ne_zero hc
      have hnle : ¬ total ≤ 0 := not_le.mpr (hlt hcpos)
      simp [extract_volume, hf, him, hloop, hnle, errShape, successShape] at hres
    · intro hc
      have hle : total ≤ 0 := le_of_eq (hz hc)
      simp [extract_volume, hf, him, hloop, hle]
  · intro hcpos
    have hnle : ¬ total ≤ 0 := not_le.mpr (hlt hcpos)
    simp [extract_volume, hf, him, hloop, hnle]

/-- Witness for claim C10 at the concrete kernel `zeroKernel`: the loop
finishes with total 0 and count 0, the error side of the equivalence
holds, and the success implication is vacuous. -/
theorem claim_C10_witness :
    ((extract_volume zeroKernel).result =
        errShape ("No valid solid objects found in STEP file") ↔ 0 = 0) ∧
    (0 < 0 → (extract_volume zeroKernel).result = successShape (0 / 1000) 0) :=
  claim_C10 zeroKernel [zeroObj] 0 0 rfl rfl (by norm_num [volumeLoop, zeroObj])

end ExtractVolume
